import Mathlib

/-!
# Verification of the multipart upload processor

A shallow embedding of the two `processMultipart` middleware variants of
this repository:

* `src/unnamed/part_000` — the main variant, with the aggregate byte
  counter `totalSize`, the fast-reject on the declared Content-Length, the
  `cleanups` registry, and the completion barrier over
  `req[waitFlushProperty]`.
* `src/lib/processMultipart.js` — the variant with the per-file
  idle-timeout timer (`setUploadTimer` / `clearUploadTimer`).

Stateful event-handler code is embedded as an explicit step function over a
session-state record, driven by a list of decoder/request events; each
handler body is translated line by line from the source. The storage sinks
(`memHandler` / `tempFileHandler`) and the decoder (Busboy) are external
collaborators whose files are not part of the sources, so their observable
behaviour is modelled from the spec where a claim depends on it, and each
such definition says so in its doc comment.
-/

namespace ExpressFileupload

/-- Limits block of the middleware options (`options.limits` in the
source): the aggregate byte cap `totalSize` and the per-file byte cap
`fileSize`. -/
structure Limits where
  totalSize : Nat
  fileSize : Nat
deriving DecidableEq, Repr

/-- Options consumed by `processMultipart`. `limitHandler` models
`isFunc(options.limitHandler)`: whether a callable custom limit handler is
configured (`false` both for absent and for non-function values).
`responseOnLimit` is the optional body text used when a limit closes the
connection. -/
structure Options where
  limits : Limits
  limitHandler : Bool
  abortOnLimit : Bool
  responseOnLimit : Option String
deriving DecidableEq, Repr

/-- Modelled from the spec: the pluggable storage sink returned by
`memHandler` / `tempFileHandler` (files not under the given sources). It
ingests chunks through `dataHandler`, reports its running byte count
through `getFileSize`, and exposes an idempotent `cleanup` action.
`received` counts the bytes delivered to `dataHandler`; `cleanupCalls`
counts invocations of the sink's registered cleanup action; `truncated`
mirrors the decoder's per-part `file.truncated` flag; `ended` records that
the part's end event ran. -/
structure Sink where
  received : Nat
  cleanupCalls : Nat
  truncated : Bool
  ended : Bool
deriving DecidableEq, Repr

/-- Fresh sink at part creation: nothing received, cleanup never run. -/
def Sink.start : Sink := ⟨0, 0, false, false⟩

/-- Entry pushed into `req.files` by the part's end handler (the
`fileFactory` output restricted to the fields the claims mention: `size`
is `getFileSize()`, `truncated` is `file.truncated`). -/
structure FileArtifact where
  size : Nat
  truncated : Bool
deriving DecidableEq, Repr

/-- State of one `processMultipart` session (`src/unnamed/part_000`): the
aggregate counter `totalSize`; one `Sink` per part in creation order (the
`cleanups` array is their cleanup actions in the same order); the
`req.files` entries built so far; how many times the completion callback
`next` ran; how many times `options.limitHandler(req, res, next)` ran on a
configured handler; how many such calls were attempted while no function
was configured (each would throw a TypeError in JavaScript); whether
`req.unpipe(busboy)` ran; the status code and reason written by
`closeConnection`, if any; the completion-barrier bookkeeping for
`req[waitFlushProperty]` (`flushRegistered` write promises pushed,
`flushSettled` of them settled, and whether the finish handler is parked
on `Promise.all`); and the ghost counter `droppedBytes`: total length of
chunks that were counted into `totalSize` but never forwarded to their
sink. -/
structure SessionState where
  totalSize : Nat
  sinks : List Sink
  files : List FileArtifact
  nextCalls : Nat
  limitHandlerCalls : Nat
  typeErrors : Nat
  unpiped : Bool
  closedWith : Option (Nat × String)
  flushRegistered : Nat
  flushSettled : Nat
  barrierWaiting : Bool
  droppedBytes : Nat
deriving DecidableEq, Repr

/-- Session state right after the middleware body set `req.files = null`
and `totalSize = 0` and attached the handlers. -/
def SessionState.start : SessionState :=
  ⟨0, [], [], 0, 0, 0, false, none, 0, 0, false, 0⟩

/-- Decoder / request events as wired in `src/unnamed/part_000`.
`fileStart` is busboy's `file` event (a new part with its sink);
`fileData`, `fileLimit`, `fileEnd`, `fileError` carry the index, in
creation order, of the part whose stream emits them; `finish` is busboy's
`finish`; `aborted` is the request's `aborted` event; `flushResolve` is
the settlement of one pending write promise from
`req[waitFlushProperty]`. -/
inductive Event where
  | fileStart
  | fileData (i : Nat) (len : Nat)
  | fileLimit (i : Nat)
  | fileEnd (i : Nat)
  | fileError (i : Nat)
  | finish
  | aborted
  | flushResolve
deriving DecidableEq, Repr

/-- Apply `f` to the sink at index `i`, leaving the list unchanged when
the index is out of range. -/
def modifyIdx (f : Sink → Sink) : Nat → List Sink → List Sink
  | _, [] => []
  | 0, sk :: rest => f sk :: rest
  | Nat.succ n, sk :: rest => sk :: modifyIdx f n rest

/-- `cleanAll` from the source: `cleanups.forEach(cleanup => cleanup())` —
every registered sink's cleanup action runs once. -/
def cleanAll (l : List Sink) : List Sink :=
  l.map fun sk => { sk with cleanupCalls := sk.cleanupCalls + 1 }

/-- Evaluate `options.limitHandler(req, res, next)`: when a function is
configured the handler runs; otherwise the unguarded call itself throws a
TypeError, recorded in `typeErrors`. -/
def callLimitHandler (opts : Options) (s : SessionState) : SessionState :=
  if opts.limitHandler then { s with limitHandlerCalls := s.limitHandlerCalls + 1 }
  else { s with typeErrors := s.typeErrors + 1 }

/-- One decoder/request event through the handlers attached in
`src/unnamed/part_000`:

* `fileStart`: the `busboy.on('file')` handler builds a sink and does
  `cleanups.push(cleanup)`.
* `fileData i len`: the `file.on('data')` handler does
  `totalSize += data.length` and checks
  `totalSize > options.limits.totalSize` before `dataHandler(data)`; on
  overflow it unpipes, runs `cleanAll()` and returns
  `options.limitHandler(req, res, next)` without forwarding the chunk.
* `fileLimit i`: the decoder truncates the part (sets `file.truncated`)
  and the `file.on('limit')` handler then either delegates to a configured
  `limitHandler` (after unpipe and `cleanAll()`), or, when `abortOnLimit`
  is set, runs `closeConnection(413, options.responseOnLimit)` followed by
  `cleanAll()`, or does nothing.
* `fileEnd i`: the `file.on('end')` handler appends the artifact built
  from `getFileSize()` and `file.truncated` to `req.files` and pushes
  `getWritePromise()` onto `req[waitFlushProperty]`.
* `fileError i`: the `file.on('error')` handler runs `cleanAll()` and
  calls `next()`.
* `finish`: the `busboy.on('finish')` handler calls the completion handler
  immediately when no write promise was registered or all have settled,
  and otherwise parks it behind `Promise.all(req[waitFlushProperty])`.
* `aborted`: the `req.on('aborted')` handler runs `cleanAll()`.
* `flushResolve`: one pending write promise settles; when the parked
  `Promise.all` sees the last one settle, the completion handler runs. -/
def step (opts : Options) (s : SessionState) : Event → SessionState
  | .fileStart =>
      { s with sinks := s.sinks ++ [Sink.start] }
  | .fileData i len =>
      let total := s.totalSize + len
      if opts.limits.totalSize < total then
        callLimitHandler opts
          { s with totalSize := total, unpiped := true, sinks := cleanAll s.sinks,
                   droppedBytes := s.droppedBytes + len }
      else
        { s with totalSize := total,
                 sinks := modifyIdx (fun sk => { sk with received := sk.received + len }) i s.sinks }
  | .fileLimit i =>
      let s1 := { s with
        sinks := modifyIdx (fun sk => { sk with truncated := true }) i s.sinks }
      if opts.limitHandler then
        callLimitHandler opts { s1 with unpiped := true, sinks := cleanAll s1.sinks }
      else if opts.abortOnLimit then
        { s1 with unpiped := true,
                  closedWith := some (413, opts.responseOnLimit.getD "Bad Request"),
                  sinks := cleanAll s1.sinks }
      else s1
  | .fileEnd i =>
      match s.sinks[i]? with
      | some sk =>
          { s with files := s.files ++ [⟨sk.received, sk.truncated⟩],
                   sinks := modifyIdx (fun sk => { sk with ended := true }) i s.sinks,
                   flushRegistered := s.flushRegistered + 1 }
      | none => s
  | .fileError _ =>
      { s with sinks := cleanAll s.sinks, nextCalls := s.nextCalls + 1 }
  | .finish =>
      if s.flushRegistered = 0 then
        { s with nextCalls := s.nextCalls + 1 }
      else if s.flushSettled = s.flushRegistered then
        { s with nextCalls := s.nextCalls + 1 }
      else
        { s with barrierWaiting := true }
  | .aborted =>
      { s with sinks := cleanAll s.sinks }
  | .flushResolve =>
      if s.barrierWaiting then
        if s.flushSettled + 1 = s.flushRegistered then
          { s with flushSettled := s.flushSettled + 1, barrierWaiting := false,
                   nextCalls := s.nextCalls + 1 }
        else
          { s with flushSettled := s.flushSettled + 1 }
      else
        { s with flushSettled := s.flushSettled + 1 }

/-- Run a whole event trace through the session handlers. -/
def run (opts : Options) (s : SessionState) (es : List Event) : SessionState :=
  es.foldl (step opts) s

/-- Well-formedness of one event against the current state: the decoder
only delivers part events for parts it has announced, and only a
registered, still-pending write promise can settle. -/
def eventOk (s : SessionState) : Event → Bool
  | .fileData i _ => decide (i < s.sinks.length)
  | .fileLimit i => decide (i < s.sinks.length)
  | .fileEnd i => decide (i < s.sinks.length)
  | .fileError i => decide (i < s.sinks.length)
  | .flushResolve => decide (s.flushSettled < s.flushRegistered)
  | _ => true

/-- Every event of the trace is well-formed in the state it is delivered
to. -/
def validFrom (opts : Options) : SessionState → List Event → Bool
  | _, [] => true
  | s, e :: es => eventOk s e && validFrom opts (step opts s e) es

/-- Observable outcome of the exported middleware
(`module.exports` in `src/unnamed/part_000`): whether `new Busboy` ran
(the fast-reject path returns before it), how often the configured limit
handler ran, how many limit-handler calls were attempted with no function
configured, how many sinks were created, and the final session state when
a session ran at all. -/
structure Outcome where
  busboyConstructed : Bool
  limitHandlerCalls : Nat
  typeErrors : Nat
  sinksCreated : Nat
  session : Option SessionState
deriving DecidableEq, Repr

/-- Top of `module.exports` in `src/unnamed/part_000`: after
`req.files = null; let totalSize = 0;` the middleware fast-rejects with
`return options.limitHandler(req, res, next)` whenever the declared
Content-Length exceeds `options.limits.totalSize`; only otherwise does it
construct Busboy, attach the handlers and process the event stream.
`contentLength` is `none` when the header is absent, in which case the
JavaScript comparison is false and no fast-reject happens. -/
def processRequest (opts : Options) (contentLength : Option Nat)
    (es : List Event) : Outcome :=
  let reject := match contentLength with
    | some n => decide (opts.limits.totalSize < n)
    | none => false
  if reject then
    if opts.limitHandler then ⟨false, 1, 0, 0, none⟩
    else ⟨false, 0, 1, 0, none⟩
  else
    let s := run opts SessionState.start es
    ⟨true, s.limitHandlerCalls, s.typeErrors, s.sinks.length, some s⟩

/-- Total bytes forwarded to the sinks' `dataHandler` across the
session. -/
def deliveredSum (s : SessionState) : Nat :=
  (s.sinks.map Sink.received).sum

/-- Per-file-part state for the `src/lib/processMultipart.js` variant,
the one with the idle-timeout timer. `timerArmed` says whether the
`setTimeout` scheduled by `setUploadTimer` is still pending; `timerFires`
counts executions of its callback (which runs `cleanup()`);
the remaining fields are the part-local observables of that variant's
handlers. -/
structure TimerPart where
  timerArmed : Bool
  timerFires : Nat
  cleanupCalls : Nat
  nextCalls : Nat
  limitHandlerCalls : Nat
  closedWith : Option (Nat × String)
  received : Nat
  artifacts : Nat
deriving DecidableEq, Repr

/-- `clearUploadTimer` from `src/lib/processMultipart.js`:
`clearTimeout(uploadTimer)`. -/
def clearUploadTimer (s : TimerPart) : TimerPart :=
  { s with timerArmed := false }

/-- `setUploadTimer` from `src/lib/processMultipart.js`: clear any pending
timer, then schedule a new timeout whose callback runs `cleanup()`. -/
def setUploadTimer (s : TimerPart) : TimerPart :=
  { clearUploadTimer s with timerArmed := true }

/-- State of one part right after the `busboy.on('file')` handler of
`src/lib/processMultipart.js` ran: handlers attached and
`setUploadTimer()` called once. -/
def TimerPart.begins : TimerPart :=
  setUploadTimer ⟨false, 0, 0, 0, 0, none, 0, 0⟩

/-- Events a single part of the timer variant can see, plus the firing of
its idle timer. -/
inductive PMEvent where
  | data (len : Nat)
  | limit
  | ended
  | errored
  | timerFire
deriving DecidableEq, Repr

/-- Event dispatch for one file part in `src/lib/processMultipart.js`.
None of the file event handlers touches the timer: `file.on('data',
dataHandler)` passes chunks straight to the sink, and the `limit`, `end`
and `error` handlers call neither `clearUploadTimer` nor
`setUploadTimer`. `timerFire` is the `setTimeout` callback: while the
timeout is still pending it runs `cleanup()` (and a fired timeout is
spent). -/
def pmStep (opts : Options) (s : TimerPart) : PMEvent → TimerPart
  | .data len => { s with received := s.received + len }
  | .limit =>
      if opts.limitHandler then
        { s with limitHandlerCalls := s.limitHandlerCalls + 1 }
      else if opts.abortOnLimit then
        { s with closedWith := some (413, opts.responseOnLimit.getD "Bad Request"),
                 cleanupCalls := s.cleanupCalls + 1 }
      else s
  | .ended => { s with artifacts := s.artifacts + 1 }
  | .errored =>
      { s with cleanupCalls := s.cleanupCalls + 1, nextCalls := s.nextCalls + 1 }
  | .timerFire =>
      if s.timerArmed then
        { s with timerArmed := false, timerFires := s.timerFires + 1,
                 cleanupCalls := s.cleanupCalls + 1 }
      else s

/-- Run one part of the timer variant through a list of events. -/
def pmRun (opts : Options) (s : TimerPart) (es : List PMEvent) : TimerPart :=
  es.foldl (pmStep opts) s

/-- Concrete configuration with a callable custom limit handler: aggregate
cap 100 bytes, per-file cap 5 bytes. -/
def optsHandler : Options := ⟨⟨100, 5⟩, true, false, none⟩

/-- Concrete configuration with no custom limit handler and `abortOnLimit`
set, `responseOnLimit` left unset. -/
def optsAbort : Options := ⟨⟨100, 5⟩, false, true, none⟩

/-- Concrete configuration with no custom limit handler and `abortOnLimit`
unset. -/
def optsPlain : Options := ⟨⟨100, 5⟩, false, false, none⟩

/-- Concrete configuration with a tiny aggregate cap of 10 bytes and a
callable custom limit handler. -/
def optsSmall : Options := ⟨⟨10, 5⟩, true, false, none⟩

/-- Modelled from the spec: Busboy, the decoder, is an external
collaborator (its files are not among the sources). Per the spec it
truncates a file part that exceeds `limits.fileSize`, silently dropping
the bytes beyond the cap: it delivers data chunks summing to exactly the
cap, raises the part's limit event (setting `file.truncated`), and then
ends the part. This is the decoder's event trace for a session holding a
single such oversized part whose delivered chunk lengths are `chunks`. -/
def truncatedSingleFileTrace (chunks : List Nat) : List Event :=
  Event.fileStart :: (chunks.map (Event.fileData 0)
    ++ [Event.fileLimit 0, Event.fileEnd 0])

/-! ## Helper lemmas about the sink list -/

/-- The limit-handler call site only touches the two call counters. -/
@[simp] theorem callLimitHandler_totalSize (opts : Options) (s : SessionState) :
    (callLimitHandler opts s).totalSize = s.totalSize := by
  cases hc : opts.limitHandler <;> simp [callLimitHandler, hc]

/-- The limit-handler call site leaves the sink list unchanged. -/
@[simp] theorem callLimitHandler_sinks (opts : Options) (s : SessionState) :
    (callLimitHandler opts s).sinks = s.sinks := by
  cases hc : opts.limitHandler <;> simp [callLimitHandler, hc]

/-- The limit-handler call site leaves the withheld-bytes counter
unchanged. -/
@[simp] theorem callLimitHandler_droppedBytes (opts : Options) (s : SessionState) :
    (callLimitHandler opts s).droppedBytes = s.droppedBytes := by
  cases hc : opts.limitHandler <;> simp [callLimitHandler, hc]

/-- The limit-handler call site does not itself invoke `next`. -/
@[simp] theorem callLimitHandler_nextCalls (opts : Options) (s : SessionState) :
    (callLimitHandler opts s).nextCalls = s.nextCalls := by
  cases hc : opts.limitHandler <;> simp [callLimitHandler, hc]

/-- The limit-handler call site leaves the unpipe flag unchanged. -/
@[simp] theorem callLimitHandler_unpiped (opts : Options) (s : SessionState) :
    (callLimitHandler opts s).unpiped = s.unpiped := by
  cases hc : opts.limitHandler <;> simp [callLimitHandler, hc]

/-- The limit-handler call site leaves the close status unchanged. -/
@[simp] theorem callLimitHandler_closedWith (opts : Options) (s : SessionState) :
    (callLimitHandler opts s).closedWith = s.closedWith := by
  cases hc : opts.limitHandler <;> simp [callLimitHandler, hc]

/-- The limit-handler call site leaves `req.files` unchanged. -/
@[simp] theorem callLimitHandler_files (opts : Options) (s : SessionState) :
    (callLimitHandler opts s).files = s.files := by
  cases hc : opts.limitHandler <;> simp [callLimitHandler, hc]

/-- The limit-handler call site leaves the barrier bookkeeping
unchanged. -/
@[simp] theorem callLimitHandler_flushRegistered (opts : Options) (s : SessionState) :
    (callLimitHandler opts s).flushRegistered = s.flushRegistered := by
  cases hc : opts.limitHandler <;> simp [callLimitHandler, hc]

/-- The limit-handler call site leaves the settled count unchanged. -/
@[simp] theorem callLimitHandler_flushSettled (opts : Options) (s : SessionState) :
    (callLimitHandler opts s).flushSettled = s.flushSettled := by
  cases hc : opts.limitHandler <;> simp [callLimitHandler, hc]

/-- Mapping a sink observable that a per-sink update preserves is
unchanged by `modifyIdx` with that update. -/
theorem map_modifyIdx_of_preserve (g : Sink → Nat) (f : Sink → Sink)
    (hf : ∀ sk, g (f sk) = g sk) :
    ∀ (i : Nat) (l : List Sink), (modifyIdx f i l).map g = l.map g := by
  intro i l
  induction l generalizing i with
  | nil => cases i <;> rfl
  | cons a t ih =>
      cases i with
      | zero => simp [modifyIdx, hf]
      | succ n => simp [modifyIdx, ih]

/-- Running every registered cleanup leaves the received byte counts
unchanged. -/
theorem map_received_cleanAll (l : List Sink) :
    (cleanAll l).map Sink.received = l.map Sink.received := by
  simp [cleanAll]

/-- Running every registered cleanup bumps each sink's cleanup invocation
count by exactly one. -/
theorem map_cleanupCalls_cleanAll (l : List Sink) :
    (cleanAll l).map Sink.cleanupCalls = l.map fun sk => sk.cleanupCalls + 1 := by
  simp [cleanAll]

/-- Delivering a chunk to the sink at an in-range index adds exactly its
length to the total received across sinks. -/
theorem sum_received_modifyIdx_add (len : Nat) :
    ∀ (i : Nat) (l : List Sink), i < l.length →
      ((modifyIdx (fun sk => { sk with received := sk.received + len }) i l).map
        Sink.received).sum = (l.map Sink.received).sum + len := by
  intro i l
  induction l generalizing i with
  | nil => intro h; simp at h
  | cons a t ih =>
      intro h
      cases i with
      | zero => simp [modifyIdx]; omega
      | succ n =>
          simp [modifyIdx]
          have := ih n (by simpa using h)
          omega

/-! ## The session invariant -/

/-- Invariant of the aggregate accounting in `src/unnamed/part_000`:
`totalSize` is exactly the bytes forwarded to sinks plus the bytes of
withheld chunks; withholding only ever happens past the aggregate cap; and
the bytes forwarded to sinks never exceed the cap. -/
def Inv (opts : Options) (s : SessionState) : Prop :=
  s.totalSize = deliveredSum s + s.droppedBytes ∧
  (s.droppedBytes ≠ 0 → opts.limits.totalSize < s.totalSize) ∧
  deliveredSum s ≤ opts.limits.totalSize

/-- The starting session state satisfies the accounting invariant. -/
theorem Inv_start (opts : Options) : Inv opts SessionState.start := by
  refine ⟨rfl, ?_, ?_⟩ <;> simp [SessionState.start, deliveredSum]

/-- Every well-formed event preserves the accounting invariant. -/
theorem Inv_step (opts : Options) (s : SessionState) (e : Event)
    (hok : eventOk s e = true) (h : Inv opts s) : Inv opts (step opts s e) := by
  obtain ⟨hA, hB, hC⟩ := h
  simp only [deliveredSum] at hA hC
  cases e with
  | fileStart =>
      refine ⟨?_, ?_, ?_⟩ <;>
        (simp [step, deliveredSum, Sink.start] <;> omega)
  | fileData i len =>
      have hok' : i < s.sinks.length := by
        simpa [eventOk] using hok
      by_cases hov : opts.limits.totalSize < s.totalSize + len
      · refine ⟨?_, ?_, ?_⟩ <;>
          (simp [step, hov, deliveredSum, map_received_cleanAll] <;> omega)
      · have hsum := sum_received_modifyIdx_add len i s.sinks hok'
        refine ⟨?_, ?_, ?_⟩ <;>
          (simp [step, hov, deliveredSum, hsum] <;> omega)
  | fileLimit i =>
      have hrecv := map_modifyIdx_of_preserve Sink.received
        (fun sk => { sk with truncated := true }) (fun _ => rfl) i s.sinks
      by_cases hcfg : opts.limitHandler = true
      · refine ⟨?_, ?_, ?_⟩ <;>
          (simp [step, hcfg, deliveredSum, map_received_cleanAll, hrecv] <;> omega)
      · by_cases hab : opts.abortOnLimit = true
        · refine ⟨?_, ?_, ?_⟩ <;>
            (simp [step, hcfg, hab, deliveredSum,
                   map_received_cleanAll, hrecv] <;> omega)
        · refine ⟨?_, ?_, ?_⟩ <;>
            (simp [step, hcfg, hab, deliveredSum, hrecv] <;> omega)
  | fileEnd i =>
      have hrecv := map_modifyIdx_of_preserve Sink.received
        (fun sk => { sk with ended := true }) (fun _ => rfl) i s.sinks
      cases hget : s.sinks[i]? with
      | none =>
          refine ⟨?_, ?_, ?_⟩ <;>
            (simp [step, hget, deliveredSum] <;> omega)
      | some sk =>
          refine ⟨?_, ?_, ?_⟩ <;>
            (simp [step, hget, deliveredSum, hrecv] <;> omega)
  | fileError i =>
      refine ⟨?_, ?_, ?_⟩ <;>
        (simp [step, deliveredSum, map_received_cleanAll] <;> omega)
  | finish =>
      by_cases h0 : s.flushRegistered = 0 <;>
        by_cases h1 : s.flushSettled = s.flushRegistered <;>
          refine ⟨?_, ?_, ?_⟩ <;>
            (simp [step, h0, h1, deliveredSum] <;> omega)
  | aborted =>
      refine ⟨?_, ?_, ?_⟩ <;>
        (simp [step, deliveredSum, map_received_cleanAll] <;> omega)
  | flushResolve =>
      by_cases hb : s.barrierWaiting = true <;>
        by_cases h1 : s.flushSettled + 1 = s.flushRegistered <;>
          refine ⟨?_, ?_, ?_⟩ <;>
            (simp [step, hb, h1, deliveredSum] <;> omega)

/-- The accounting invariant holds after any valid trace. -/
theorem Inv_run (opts : Options) :
    ∀ (es : List Event) (s : SessionState),
      validFrom opts s es = true → Inv opts s → Inv opts (run opts s es) := by
  intro es
  induction es with
  | nil => intro s _ h; exact h
  | cons e t ih =>
      intro s hv h
      rw [validFrom, Bool.and_eq_true] at hv
      rw [run, List.foldl_cons]
      exact ih (step opts s e) hv.2 (Inv_step opts s e hv.1 h)

/-- A single event never decreases the aggregate counter. -/
theorem totalSize_step_mono (opts : Options) (s : SessionState) (e : Event) :
    s.totalSize ≤ (step opts s e).totalSize := by
  cases e with
  | fileStart => simp [step]
  | fileData i len =>
      by_cases hov : opts.limits.totalSize < s.totalSize + len <;>
        (simp [step, hov] <;> omega)
  | fileLimit i =>
      by_cases hcfg : opts.limitHandler = true <;>
        by_cases hab : opts.abortOnLimit = true <;>
          (simp [step, hcfg, hab] <;> omega)
  | fileEnd i =>
      cases hget : s.sinks[i]? <;> simp [step, hget]
  | fileError i => simp [step]
  | finish =>
      by_cases h0 : s.flushRegistered = 0 <;>
        by_cases h1 : s.flushSettled = s.flushRegistered <;>
          (simp [step, h0, h1] <;> omega)
  | aborted => simp [step]
  | flushResolve =>
      by_cases hb : s.barrierWaiting = true <;>
        by_cases h1 : s.flushSettled + 1 = s.flushRegistered <;>
          (simp [step, hb, h1] <;> omega)

/-- The aggregate counter never decreases along a trace. -/
theorem totalSize_run_mono (opts : Options) :
    ∀ (es : List Event) (s : SessionState),
      s.totalSize ≤ (run opts s es).totalSize := by
  intro es
  induction es with
  | nil => intro s; exact Nat.le_refl _
  | cons e t ih =>
      intro s
      rw [run, List.foldl_cons]
      exact Nat.le_trans (totalSize_step_mono opts s e) (ih (step opts s e))

/-- Splitting a trace splits the run. -/
theorem run_append (opts : Options) (s : SessionState) (es1 es2 : List Event) :
    run opts s (es1 ++ es2) = run opts (run opts s es1) es2 := by
  simp [run, List.foldl_append]

/-! ## The claims -/

/-- C1 counterexample: in a well-formed session where two file parts each
emit a stream error, `next` is invoked twice — once from each
`file.on('error')` handler (`cleanAll(); next();`), with nothing in the
code guarding against a second invocation — refuting "the completion
callback is invoked at most once per session". -/
theorem C1_counterexample :
    validFrom optsHandler SessionState.start
      [Event.fileStart, Event.fileError 0, Event.fileStart, Event.fileError 1] = true ∧
    ¬ ((run optsHandler SessionState.start
        [Event.fileStart, Event.fileError 0, Event.fileStart, Event.fileError 1]).nextCalls ≤ 1) := by
  decide

/-- C1 (amended): the successful completion invocation of `next` — the one
issued by the `busboy.on('finish')` handler, directly or after the parked
`Promise.all(req[waitFlushProperty])` resolves — happens only in a state
where every flush-await handle registered for the session has settled.
The at-most-once half of the original claim fails (see the
counterexample): a file stream error also invokes `next`, with no guard
against repeated invocations. -/
theorem C1_completion_after_flush (opts : Options) (s : SessionState)
    (hwf : s.flushSettled ≤ s.flushRegistered) :
    (s.nextCalls < (step opts s Event.finish).nextCalls →
      (step opts s Event.finish).flushSettled
        = (step opts s Event.finish).flushRegistered) ∧
    (s.nextCalls < (step opts s Event.flushResolve).nextCalls →
      (step opts s Event.flushResolve).flushSettled
        = (step opts s Event.flushResolve).flushRegistered) := by
  constructor
  · intro hn
    by_cases h0 : s.flushRegistered = 0
    · simp [step, h0] at hn ⊢
      omega
    · by_cases h1 : s.flushSettled = s.flushRegistered
      · simp [step, h0, h1]
      · simp [step, h0, h1] at hn
  · intro hn
    by_cases hb : s.barrierWaiting = true
    · by_cases h1 : s.flushSettled + 1 = s.flushRegistered
      · simp [step, hb, h1]
      · simp [step, hb, h1] at hn
    · simp [step, hb] at hn

/-- Witness for C1: the amended statement, instantiated at the starting
state of a fresh session. -/
theorem C1_completion_after_flush_witness :
    SessionState.start.flushSettled ≤ SessionState.start.flushRegistered ∧
    ((SessionState.start.nextCalls
        < (step optsHandler SessionState.start Event.finish).nextCalls →
      (step optsHandler SessionState.start Event.finish).flushSettled
        = (step optsHandler SessionState.start Event.finish).flushRegistered) ∧
     (SessionState.start.nextCalls
        < (step optsHandler SessionState.start Event.flushResolve).nextCalls →
      (step optsHandler SessionState.start Event.flushResolve).flushSettled
        = (step optsHandler SessionState.start Event.flushResolve).flushRegistered)) :=
  ⟨Nat.le_refl 0,
   C1_completion_after_flush optsHandler SessionState.start (Nat.le_refl 0)⟩

/-- C2 counterexample: aggregate cap 10, one 11-byte chunk. The data
handler first adds the chunk length to `totalSize` and only then checks
the cap, so `totalSize` ends at 11 while the chunk is withheld from its
sink: the aggregate counter does not equal the bytes delivered to the
sinks' data handlers, refuting the claimed equality (the session ends in
this state, so it also fails at session end). -/
theorem C2_counterexample :
    validFrom optsSmall SessionState.start
      [Event.fileStart, Event.fileData 0 11] = true ∧
    ¬ ((run optsSmall SessionState.start
          [Event.fileStart, Event.fileData 0 11]).totalSize
        = deliveredSum (run optsSmall SessionState.start
            [Event.fileStart, Event.fileData 0 11])) := by
  decide

/-- C2 (amended): along every well-formed trace the aggregate counter
`totalSize` is monotonically non-decreasing, and at every point equals the
bytes delivered to the sinks' data handlers plus the bytes of chunks
withheld by the aggregate-limit check; in particular, whenever the counter
is within `limits.totalSize` — so in every session in which the aggregate
limit never fired — it equals exactly the sum of the chunk lengths
delivered to all sinks. -/
theorem C2_totalSize_accounting (opts : Options) (es1 es2 : List Event)
    (hv : validFrom opts SessionState.start (es1 ++ es2) = true) :
    (run opts SessionState.start es1).totalSize
        ≤ (run opts SessionState.start (es1 ++ es2)).totalSize ∧
    (run opts SessionState.start (es1 ++ es2)).totalSize
        = deliveredSum (run opts SessionState.start (es1 ++ es2))
            + (run opts SessionState.start (es1 ++ es2)).droppedBytes ∧
    ((run opts SessionState.start (es1 ++ es2)).totalSize ≤ opts.limits.totalSize →
      (run opts SessionState.start (es1 ++ es2)).totalSize
        = deliveredSum (run opts SessionState.start (es1 ++ es2))) := by
  have hinv := Inv_run opts (es1 ++ es2) SessionState.start hv (Inv_start opts)
  obtain ⟨hA, hB, hC⟩ := hinv
  refine ⟨?_, hA, ?_⟩
  · rw [run_append]
    exact totalSize_run_mono opts es2 (run opts SessionState.start es1)
  · intro hle
    have hd : (run opts SessionState.start (es1 ++ es2)).droppedBytes = 0 := by
      by_contra hne
      exact absurd (hB hne) (by omega)
    omega

/-- Witness for C2: a two-part session staying within the cap. -/
theorem C2_totalSize_accounting_witness :
    validFrom optsSmall SessionState.start
      ([Event.fileStart] ++ [Event.fileData 0 4, Event.fileEnd 0]) = true ∧
    ((run optsSmall SessionState.start [Event.fileStart]).totalSize
        ≤ (run optsSmall SessionState.start
            ([Event.fileStart] ++ [Event.fileData 0 4, Event.fileEnd 0])).totalSize ∧
     (run optsSmall SessionState.start
        ([Event.fileStart] ++ [Event.fileData 0 4, Event.fileEnd 0])).totalSize
        = deliveredSum (run optsSmall SessionState.start
            ([Event.fileStart] ++ [Event.fileData 0 4, Event.fileEnd 0]))
            + (run optsSmall SessionState.start
                ([Event.fileStart] ++ [Event.fileData 0 4, Event.fileEnd 0])).droppedBytes ∧
     ((run optsSmall SessionState.start
        ([Event.fileStart] ++ [Event.fileData 0 4, Event.fileEnd 0])).totalSize
          ≤ optsSmall.limits.totalSize →
      (run optsSmall SessionState.start
        ([Event.fileStart] ++ [Event.fileData 0 4, Event.fileEnd 0])).totalSize
        = deliveredSum (run optsSmall SessionState.start
            ([Event.fileStart] ++ [Event.fileData 0 4, Event.fileEnd 0])))) :=
  ⟨by decide,
   C2_totalSize_accounting optsSmall [Event.fileStart]
     [Event.fileData 0 4, Event.fileEnd 0] (by decide)⟩

/-- C3: in the `file.on('data')` handler the aggregate counter is
incremented and checked against `limits.totalSize` strictly before
`dataHandler(data)`. On overflow the source is unpiped from the decoder,
every registered cleanup runs once, the configured limit handler is
invoked, and the chunk is not forwarded (no sink's received bytes change);
consequently, across every well-formed session the bytes delivered to the
sinks never exceed the aggregate cap. -/
theorem C3_aggregate_check_before_write (opts : Options) (es : List Event)
    (hv : validFrom opts SessionState.start es = true)
    (s : SessionState) (i len : Nat)
    (hover : opts.limits.totalSize < s.totalSize + len) :
    deliveredSum (run opts SessionState.start es) ≤ opts.limits.totalSize ∧
    (step opts s (Event.fileData i len)).unpiped = true ∧
    (step opts s (Event.fileData i len)).sinks.map Sink.cleanupCalls
        = s.sinks.map (fun sk => sk.cleanupCalls + 1) ∧
    (opts.limitHandler = true →
      (step opts s (Event.fileData i len)).limitHandlerCalls
        = s.limitHandlerCalls + 1) ∧
    (step opts s (Event.fileData i len)).sinks.map Sink.received
        = s.sinks.map Sink.received := by
  refine ⟨?_, ?_, ?_, ?_, ?_⟩
  · exact (Inv_run opts es SessionState.start hv (Inv_start opts)).2.2
  · simp [step, hover]
  · simp [step, hover, map_cleanupCalls_cleanAll]
  · intro hcfg
    simp [step, hover, callLimitHandler, hcfg]
  · simp [step, hover, map_received_cleanAll]

/-- Witness for C3: the overflowing second chunk of a small session. -/
theorem C3_aggregate_check_before_write_witness :
    validFrom optsSmall SessionState.start
      [Event.fileStart, Event.fileData 0 4] = true ∧
    optsSmall.limits.totalSize
      < (run optsSmall SessionState.start
          [Event.fileStart, Event.fileData 0 4]).totalSize + 7 ∧
    (deliveredSum (run optsSmall SessionState.start
        [Event.fileStart, Event.fileData 0 4]) ≤ optsSmall.limits.totalSize ∧
     (step optsSmall (run optsSmall SessionState.start
        [Event.fileStart, Event.fileData 0 4]) (Event.fileData 0 7)).unpiped = true ∧
     (step optsSmall (run optsSmall SessionState.start
        [Event.fileStart, Event.fileData 0 4]) (Event.fileData 0 7)).sinks.map
          Sink.cleanupCalls
        = (run optsSmall SessionState.start
            [Event.fileStart, Event.fileData 0 4]).sinks.map
              (fun sk => sk.cleanupCalls + 1) ∧
     (optsSmall.limitHandler = true →
       (step optsSmall (run optsSmall SessionState.start
          [Event.fileStart, Event.fileData 0 4]) (Event.fileData 0 7)).limitHandlerCalls
         = (run optsSmall SessionState.start
             [Event.fileStart, Event.fileData 0 4]).limitHandlerCalls + 1) ∧
     (step optsSmall (run optsSmall SessionState.start
        [Event.fileStart, Event.fileData 0 4]) (Event.fileData 0 7)).sinks.map
          Sink.received
        = (run optsSmall SessionState.start
            [Event.fileStart, Event.fileData 0 4]).sinks.map Sink.received) :=
  ⟨by decide, by decide,
   C3_aggregate_check_before_write optsSmall
     [Event.fileStart, Event.fileData 0 4] (by decide)
     (run optsSmall SessionState.start [Event.fileStart, Event.fileData 0 4])
     0 7 (by decide)⟩

/-- C4: when the declared Content-Length exceeds `limits.totalSize` the
middleware hits `return options.limitHandler(req, res, next)` before
`new Busboy(busboyOptions)` runs: the configured handler is invoked
exactly once, the decoder is never constructed, no sink is created, and no
field or file handlers are attached (there is no decoder to attach them
to). -/
theorem C4_fast_reject (opts : Options) (n : Nat) (es : List Event)
    (hn : opts.limits.totalSize < n) (hconf : opts.limitHandler = true) :
    processRequest opts (some n) es
      = ⟨false, 1, 0, 0, none⟩ := by
  simp [processRequest, hn, hconf]

/-- Witness for C4: Content-Length 101 against a cap of 100. -/
theorem C4_fast_reject_witness :
    optsHandler.limits.totalSize < 101 ∧ optsHandler.limitHandler = true ∧
    processRequest optsHandler (some 101) [Event.fileStart]
      = ⟨false, 1, 0, 0, none⟩ :=
  ⟨by decide, by decide,
   C4_fast_reject optsHandler 101 [Event.fileStart] (by decide) (by decide)⟩

/-- C5 counterexample: a per-file limit with no custom limit handler and
`abortOnLimit` set closes the connection with status 413, not 400: the
call site is `closeConnection(413, options.responseOnLimit)`, so the 400
fallback inside `closeConnection` is unreachable on this path and the
status code is not configurable (only the reason is, via
`responseOnLimit`). -/
theorem C5_counterexample :
    (run optsAbort SessionState.start
        [Event.fileStart, Event.fileLimit 0]).closedWith
      = some (413, "Bad Request") ∧
    (run optsAbort SessionState.start
        [Event.fileStart, Event.fileLimit 0]).closedWith
      ≠ some (400, "Bad Request") := by
  constructor
  · rfl
  · decide

/-- C5 (amended): on a per-file size limit signal with no custom
`limitHandler` configured and `abortOnLimit` set, the connection is closed
with status code 413 — the status is hard-coded at the call site, not
configurable — and with reason `options.responseOnLimit` defaulting to
"Bad Request"; the source is unpiped and full session cleanup runs (every
registered cleanup action is invoked once via `cleanAll`). -/
theorem C5_abort_on_limit (opts : Options) (s : SessionState) (i : Nat)
    (hnf : opts.limitHandler = false) (hab : opts.abortOnLimit = true) :
    (step opts s (Event.fileLimit i)).closedWith
        = some (413, opts.responseOnLimit.getD "Bad Request") ∧
    (step opts s (Event.fileLimit i)).unpiped = true ∧
    (step opts s (Event.fileLimit i)).sinks.map Sink.cleanupCalls
        = s.sinks.map (fun sk => sk.cleanupCalls + 1) := by
  have hclean := map_modifyIdx_of_preserve (fun sk => sk.cleanupCalls + 1)
    (fun sk => { sk with truncated := true }) (fun _ => rfl) i s.sinks
  refine ⟨?_, ?_, ?_⟩ <;>
    simp [step, hnf, hab, map_cleanupCalls_cleanAll, hclean]

/-- Witness for C5: the amended statement at a one-part session with
`responseOnLimit` unset. -/
theorem C5_abort_on_limit_witness :
    optsAbort.limitHandler = false ∧ optsAbort.abortOnLimit = true ∧
    ((step optsAbort (run optsAbort SessionState.start [Event.fileStart])
        (Event.fileLimit 0)).closedWith
        = some (413, optsAbort.responseOnLimit.getD "Bad Request") ∧
     (step optsAbort (run optsAbort SessionState.start [Event.fileStart])
        (Event.fileLimit 0)).unpiped = true ∧
     (step optsAbort (run optsAbort SessionState.start [Event.fileStart])
        (Event.fileLimit 0)).sinks.map Sink.cleanupCalls
        = (run optsAbort SessionState.start [Event.fileStart]).sinks.map
            (fun sk => sk.cleanupCalls + 1)) :=
  ⟨rfl, rfl,
   C5_abort_on_limit optsAbort
     (run optsAbort SessionState.start [Event.fileStart]) 0 rfl rfl⟩

/-- Delivering a list of in-cap chunks to the single sink of a session
adds their total both to the aggregate counter and to the sink's received
bytes, and changes nothing else. -/
theorem run_data_chunks (opts : Options) (chunks : List Nat) :
    ∀ (s : SessionState) (sk : Sink),
      s.sinks = [sk] →
      s.totalSize + chunks.sum ≤ opts.limits.totalSize →
      run opts s (chunks.map (Event.fileData 0))
        = { s with totalSize := s.totalSize + chunks.sum,
                   sinks := [{ sk with received := sk.received + chunks.sum }] } := by
  induction chunks with
  | nil =>
      intro s sk hs _
      cases s
      cases sk
      simp_all [run]
  | cons c rest ih =>
      intro s sk hs hle
      have hc : (c :: rest).sum = c + rest.sum := by simp
      have hnot : ¬ opts.limits.totalSize < s.totalSize + c := by
        rw [hc] at hle; omega
      have hstep : step opts s (Event.fileData 0 c)
          = { s with totalSize := s.totalSize + c,
                     sinks := [{ sk with received := sk.received + c }] } := by
        simp [step, hnot, hs, modifyIdx]
      have hrest := ih
        { s with totalSize := s.totalSize + c,
                 sinks := [{ sk with received := sk.received + c }] }
        { sk with received := sk.received + c } rfl
        (by rw [hc] at hle; simpa [Nat.add_assoc] using hle)
      calc run opts s ((c :: rest).map (Event.fileData 0))
          = run opts (step opts s (Event.fileData 0 c))
              (rest.map (Event.fileData 0)) := rfl
        _ = _ := by
              rw [hstep, hrest]
              cases s
              cases sk
              simp_all [Nat.add_assoc]

/-- C6: a single file part exceeding `limits.fileSize`, with
`abortOnLimit` unset and no custom limit handler configured, the per-file
cap within the aggregate cap: the limit handler falls through without
acting, processing continues (no unpipe, no connection close, no
completion call), and the part's end handler still adds an artifact to
`req.files` with its truncated flag set and size equal to the configured
per-file cap. -/
theorem C6_truncated_artifact (opts : Options) (chunks : List Nat)
    (hnf : opts.limitHandler = false) (hab : opts.abortOnLimit = false)
    (hsum : chunks.sum = opts.limits.fileSize)
    (hle : opts.limits.fileSize ≤ opts.limits.totalSize) :
    (run opts SessionState.start (truncatedSingleFileTrace chunks)).files
        = [⟨opts.limits.fileSize, true⟩] ∧
    (run opts SessionState.start (truncatedSingleFileTrace chunks)).closedWith
        = none ∧
    (run opts SessionState.start (truncatedSingleFileTrace chunks)).unpiped
        = false ∧
    (run opts SessionState.start (truncatedSingleFileTrace chunks)).nextCalls
        = 0 := by
  have h0 : run opts SessionState.start [Event.fileStart]
      = { SessionState.start with sinks := [Sink.start] } := by
    simp [run, step, SessionState.start]
  have h1 := run_data_chunks opts chunks
      { SessionState.start with sinks := [Sink.start] } Sink.start rfl
      (by simpa [SessionState.start, hsum] using hle)
  have h2 : run opts SessionState.start (truncatedSingleFileTrace chunks)
      = run opts (run opts (run opts SessionState.start [Event.fileStart])
          (chunks.map (Event.fileData 0)))
          [Event.fileLimit 0, Event.fileEnd 0] := by
    rw [truncatedSingleFileTrace, ← run_append, ← run_append]
    rfl
  rw [h2, h0, h1]
  refine ⟨?_, ?_, ?_, ?_⟩ <;>
    simp [run, step, hnf, hab, modifyIdx, SessionState.start, Sink.start, hsum]

/-- Witness for C6: per-file cap 5, aggregate cap 100, chunks 3 and 2. -/
theorem C6_truncated_artifact_witness :
    optsPlain.limitHandler = false ∧ optsPlain.abortOnLimit = false ∧
    ([3, 2] : List Nat).sum = optsPlain.limits.fileSize ∧
    optsPlain.limits.fileSize ≤ optsPlain.limits.totalSize ∧
    ((run optsPlain SessionState.start (truncatedSingleFileTrace [3, 2])).files
        = [⟨optsPlain.limits.fileSize, true⟩] ∧
     (run optsPlain SessionState.start (truncatedSingleFileTrace [3, 2])).closedWith
        = none ∧
     (run optsPlain SessionState.start (truncatedSingleFileTrace [3, 2])).unpiped
        = false ∧
     (run optsPlain SessionState.start (truncatedSingleFileTrace [3, 2])).nextCalls
        = 0) :=
  ⟨rfl, rfl, by decide, by decide,
   C6_truncated_artifact optsPlain [3, 2] rfl rfl (by decide) (by decide)⟩

/-- C7: in `src/lib/processMultipart.js` no file event handler cancels the
idle-upload timer — `clearUploadTimer` is only ever run inside
`setUploadTimer`, which runs once when the part starts — so after the
part's end (or error) the timer is still armed, and when it fires it still
runs `cleanup()`, here on a successfully completed part. This contradicts
the claimed cancel-on-end/error/limit behaviour; the code evaluated at the
failing input shows the timer firing after the part ended. -/
theorem C7_timer_never_cancelled :
    (pmRun optsPlain TimerPart.begins [PMEvent.data 3, PMEvent.ended]).timerArmed
        = true ∧
    (pmRun optsPlain TimerPart.begins
        [PMEvent.data 3, PMEvent.ended, PMEvent.timerFire]).timerFires = 1 ∧
    (pmRun optsPlain TimerPart.begins
        [PMEvent.data 3, PMEvent.ended, PMEvent.timerFire]).cleanupCalls = 1 ∧
    (pmRun optsPlain TimerPart.begins
        [PMEvent.errored, PMEvent.timerFire]).timerFires = 1 := by
  decide

/-- C8: the `req.on('aborted')` handler runs every cleanup registered in
the `cleanups` array exactly once — each sink's cleanup invocation count
rises by exactly one — and the abort path never invokes `next`, nor the
limit handler, nor changes `req.files`. -/
theorem C8_abort_cleanup (opts : Options) (s : SessionState) :
    (step opts s Event.aborted).sinks.map Sink.cleanupCalls
        = s.sinks.map (fun sk => sk.cleanupCalls + 1) ∧
    (step opts s Event.aborted).nextCalls = s.nextCalls ∧
    (step opts s Event.aborted).limitHandlerCalls = s.limitHandlerCalls ∧
    (step opts s Event.aborted).files = s.files := by
  refine ⟨?_, ?_, ?_, ?_⟩ <;> simp [step, map_cleanupCalls_cleanAll]

/-- C9: with no callable `limitHandler` configured, the fast-reject path
and the aggregate-limit path still attempt
`options.limitHandler(req, res, next)` — the unguarded call itself fails —
while the per-file limit handler guards the call with
`isFunc(options.limitHandler)` and falls through without attempting it. -/
theorem C9_unguarded_handler_calls (opts : Options) (n : Nat)
    (es : List Event) (s : SessionState) (i len : Nat)
    (hnf : opts.limitHandler = false)
    (hn : opts.limits.totalSize < n)
    (hover : opts.limits.totalSize < s.totalSize + len) :
    (processRequest opts (some n) es).typeErrors = 1 ∧
    (processRequest opts (some n) es).limitHandlerCalls = 0 ∧
    (step opts s (Event.fileData i len)).typeErrors = s.typeErrors + 1 ∧
    (step opts s (Event.fileLimit i)).typeErrors = s.typeErrors ∧
    (step opts s (Event.fileLimit i)).limitHandlerCalls
        = s.limitHandlerCalls := by
  refine ⟨?_, ?_, ?_, ?_, ?_⟩
  · simp [processRequest, hn, hnf]
  · simp [processRequest, hn, hnf]
  · simp [step, hover, callLimitHandler, hnf]
  · by_cases hab : opts.abortOnLimit = true <;> simp [step, hnf, hab]
  · by_cases hab : opts.abortOnLimit = true <;> simp [step, hnf, hab]

/-- Witness for C9: no handler configured, Content-Length 101 against cap
100, and a first chunk of 101 bytes. -/
theorem C9_unguarded_handler_calls_witness :
    optsPlain.limitHandler = false ∧
    optsPlain.limits.totalSize < 101 ∧
    optsPlain.limits.totalSize
      < (run optsPlain SessionState.start [Event.fileStart]).totalSize + 101 ∧
    ((processRequest optsPlain (some 101) []).typeErrors = 1 ∧
     (processRequest optsPlain (some 101) []).limitHandlerCalls = 0 ∧
     (step optsPlain (run optsPlain SessionState.start [Event.fileStart])
        (Event.fileData 0 101)).typeErrors
        = (run optsPlain SessionState.start [Event.fileStart]).typeErrors + 1 ∧
     (step optsPlain (run optsPlain SessionState.start [Event.fileStart])
        (Event.fileLimit 0)).typeErrors
        = (run optsPlain SessionState.start [Event.fileStart]).typeErrors ∧
     (step optsPlain (run optsPlain SessionState.start [Event.fileStart])
        (Event.fileLimit 0)).limitHandlerCalls
        = (run optsPlain SessionState.start [Event.fileStart]).limitHandlerCalls) :=
  ⟨rfl, by decide, by decide,
   C9_unguarded_handler_calls optsPlain 101 []
     (run optsPlain SessionState.start [Event.fileStart]) 0 101
     rfl (by decide) (by decide)⟩

/-- C10: both size-cap comparisons are strict. A declared Content-Length
exactly equal to `limits.totalSize` is not fast-rejected — Busboy is
constructed — and a chunk that brings the aggregate counter to exactly
`limits.totalSize` does not trigger the aggregate limit: it is forwarded
to its sink (the delivered total grows by the chunk length) with no
unpipe, no cleanup run, and no limit-handler call or call attempt. -/
theorem C10_strict_caps (opts : Options) (es : List Event)
    (s : SessionState) (i len : Nat)
    (heq : s.totalSize + len = opts.limits.totalSize)
    (hi : i < s.sinks.length) :
    (processRequest opts (some opts.limits.totalSize) es).busboyConstructed
        = true ∧
    ((step opts s (Event.fileData i len)).sinks.map Sink.received).sum
        = (s.sinks.map Sink.received).sum + len ∧
    (step opts s (Event.fileData i len)).unpiped = s.unpiped ∧
    (step opts s (Event.fileData i len)).sinks.map Sink.cleanupCalls
        = s.sinks.map Sink.cleanupCalls ∧
    (step opts s (Event.fileData i len)).limitHandlerCalls
        = s.limitHandlerCalls ∧
    (step opts s (Event.fileData i len)).typeErrors = s.typeErrors := by
  have hnot : ¬ opts.limits.totalSize < s.totalSize + len := by omega
  have hclean := map_modifyIdx_of_preserve Sink.cleanupCalls
    (fun sk => { sk with received := sk.received + len }) (fun _ => rfl) i s.sinks
  refine ⟨?_, ?_, ?_, ?_, ?_, ?_⟩
  · simp [processRequest]
  · simpa [step, hnot] using sum_received_modifyIdx_add len i s.sinks hi
  · simp [step, hnot]
  · simpa [step, hnot] using hclean
  · simp [step, hnot]
  · simp [step, hnot]

/-- Witness for C10: a 60-byte chunk followed by a 40-byte chunk against
the aggregate cap of 100. -/
theorem C10_strict_caps_witness :
    (run optsHandler SessionState.start
        [Event.fileStart, Event.fileData 0 60]).totalSize + 40
      = optsHandler.limits.totalSize ∧
    0 < (run optsHandler SessionState.start
        [Event.fileStart, Event.fileData 0 60]).sinks.length ∧
    ((processRequest optsHandler (some optsHandler.limits.totalSize)
        []).busboyConstructed = true ∧
     ((step optsHandler (run optsHandler SessionState.start
          [Event.fileStart, Event.fileData 0 60])
        (Event.fileData 0 40)).sinks.map Sink.received).sum
        = ((run optsHandler SessionState.start
            [Event.fileStart, Event.fileData 0 60]).sinks.map Sink.received).sum
            + 40 ∧
     (step optsHandler (run optsHandler SessionState.start
          [Event.fileStart, Event.fileData 0 60])
        (Event.fileData 0 40)).unpiped
        = (run optsHandler SessionState.start
            [Event.fileStart, Event.fileData 0 60]).unpiped ∧
     (step optsHandler (run optsHandler SessionState.start
          [Event.fileStart, Event.fileData 0 60])
        (Event.fileData 0 40)).sinks.map Sink.cleanupCalls
        = (run optsHandler SessionState.start
            [Event.fileStart, Event.fileData 0 60]).sinks.map Sink.cleanupCalls ∧
     (step optsHandler (run optsHandler SessionState.start
          [Event.fileStart, Event.fileData 0 60])
        (Event.fileData 0 40)).limitHandlerCalls
        = (run optsHandler SessionState.start
            [Event.fileStart, Event.fileData 0 60]).limitHandlerCalls ∧
     (step optsHandler (run optsHandler SessionState.start
          [Event.fileStart, Event.fileData 0 60])
        (Event.fileData 0 40)).typeErrors
        = (run optsHandler SessionState.start
            [Event.fileStart, Event.fileData 0 60]).typeErrors) :=
  ⟨by decide, by decide,
   C10_strict_caps optsHandler []
     (run optsHandler SessionState.start [Event.fileStart, Event.fileData 0 60])
     0 40 (by decide) (by decide)⟩

end ExpressFileupload
